import Mathlib

/-!
Verification of the travel-planner program (guide_travel.py).

Modelling conventions:
- Python strings are modelled as `List Char`; `str` converts a Lean string
  literal to that representation.
- Python numbers are modelled as `ℚ` (the budget arithmetic mixes ints and
  float literals such as 0.4; over `ℚ` the arithmetic is exact, which is the
  intended reading of the floating-point tolerance in the specification).
- `str.splitlines` is modelled by `pySplitlines` (it splits on the Unicode
  line boundaries, treating a CRLF pair as one boundary, and drops a trailing
  empty line); `str.split(chr(10))` is modelled by `splitNL`.
-/

/-- Conversion from a Lean string literal to the character-list model. -/
def str (s : String) : List Char := s.data

/-- Characters treated as line boundaries by Python str.splitlines. -/
def isLineBreak (c : Char) : Bool :=
  c == '\n' || c == '\r' || c == '\x0b' || c == '\x0c' ||
  c == '\x1c' || c == '\x1d' || c == '\x1e' || c == '\x85' ||
  c == '\u2028' || c == '\u2029'

/-- Characters stripped by Python str.strip() with no arguments: exactly the
codepoints on which str.isspace() holds, namely tab through carriage return,
the separators x1c through x1f, space, x85, the no-break space xa0, the Ogham
space mark u1680, the spaces u2000 through u200a, the line and paragraph
separators u2028 and u2029, the narrow no-break space u202f, the medium
mathematical space u205f, and the ideographic space u3000. -/
def isPyWS (c : Char) : Bool :=
  (decide (0x9 ≤ c.toNat) && decide (c.toNat ≤ 0xd)) ||
  (decide (0x1c ≤ c.toNat) && decide (c.toNat ≤ 0x1f)) ||
  c == ' ' || c == '\x85' || c == '\xa0' || c == '\u1680' ||
  (decide (0x2000 ≤ c.toNat) && decide (c.toNat ≤ 0x200a)) ||
  c == '\u2028' || c == '\u2029' || c == '\u202f' || c == '\u205f' || c == '\u3000'

/-- Python str.strip(): remove leading and trailing whitespace. -/
def pyStrip (l : List Char) : List Char :=
  ((l.dropWhile isPyWS).reverse.dropWhile isPyWS).reverse

/-- Worker for `pySplitlines`: `acc` holds the reversed characters of the line
being read and `afterCR` records that the previous character was a carriage
return, so that the line feed of a CRLF pair does not open a second line.
Any boundary character ends a line; a final line is emitted only when nonempty
(Python drops the trailing empty line after a final boundary and returns []
for the empty string). -/
def splitlinesGo : List Char → List Char → Bool → List (List Char)
  | [], acc, _ => if acc.isEmpty then [] else [acc.reverse]
  | c :: rest, acc, afterCR =>
    if afterCR && (c == '\n') then
      splitlinesGo rest acc false
    else if isLineBreak c then
      acc.reverse :: splitlinesGo rest [] (c == '\r')
    else
      splitlinesGo rest (c :: acc) false

/-- Model of Python str.splitlines. -/
def pySplitlines (l : List Char) : List (List Char) := splitlinesGo l [] false

/-- Model of Python str.split(chr(10)): split on the newline character only,
keeping empty segments. -/
def splitNL (l : List Char) : List (List Char) := l.splitOn '\n'

/-- Inverse of `splitNL`: join segments with a newline character. -/
def joinNL (ls : List (List Char)) : List Char := List.intercalate ['\n'] ls

/-- Document elements produced by markdown_to_flowables (guide_travel.py lines
129-145). `heading` models Paragraph(line[3:], h2), `bullet` models a
single-item ListFlowable, `para` models Paragraph(line or " ", body), and
`spacer` models Spacer(1, 4). -/
inductive Flowable where
  | heading : List Char → Flowable
  | bullet : List Char → Flowable
  | para : List Char → Flowable
  | spacer : Flowable
deriving DecidableEq

/-- Per-line classification of markdown_to_flowables: a line starting with
"## " becomes a heading holding line[3:], otherwise a line starting with
"- " becomes a bullet holding line[2:], otherwise a paragraph holding the
line itself, with the empty line replaced by a single space. -/
def classifyLine (l : List Char) : Flowable :=
  if (str "## ").isPrefixOf l then Flowable.heading (l.drop 3)
  else if (str "- ").isPrefixOf l then Flowable.bullet (l.drop 2)
  else Flowable.para (if l = [] then str " " else l)

/-- Model of markdown_to_flowables (guide_travel.py lines 129-145): split the
text with splitlines, classify each line, and append a spacer after every
line. -/
def markdown_to_flowables (md_text : List Char) : List Flowable :=
  (pySplitlines md_text).flatMap (fun l => [classifyLine l, Flowable.spacer])

/-- Model of estimate_budget (guide_travel.py lines 66-75): a fixed four-way
percentage split of daily_budget * num_people over the given days, returned
together with the sum of the four amounts. -/
def estimate_budget (days daily_budget num_people : ℚ) :
    List (String × ℚ) × ℚ :=
  let total_daily := daily_budget * num_people
  let breakdown : List (String × ℚ) :=
    [("Accommodation", total_daily * 0.4 * days),
     ("Food", total_daily * 0.25 * days),
     ("Transport", total_daily * 0.15 * days),
     ("Activities", total_daily * 0.2 * days)]
  (breakdown, (breakdown.map Prod.snd).sum)

/-- Model of the total_days computation in the output section (guide_travel.py
lines 260-262): days per city times the number of non-blank city lines. -/
def total_days (days : ℤ) (citiesText : List Char) : ℤ :=
  days * ((pySplitlines citiesText).filter (fun c => pyStrip c ≠ [])).length

/-!
Stepping lemmas for the splitlines model.
-/

/-- Reading the line feed of a CRLF pair does not open a new line. -/
theorem splitlinesGo_skipLF (rest acc : List Char) :
    splitlinesGo ('\n' :: rest) acc true = splitlinesGo rest acc false := by
  simp [splitlinesGo]

/-- An ordinary character is accumulated into the current line. -/
theorem splitlinesGo_nobrk {c : Char} (h : isLineBreak c = false) (rest acc : List Char)
    (f : Bool) : splitlinesGo (c :: rest) acc f = splitlinesGo rest (c :: acc) false := by
  have hn : (c == '\n') = false := by
    cases hh : c == '\n'
    · rfl
    · exfalso; rw [show c = '\n' from beq_iff_eq.mp hh] at h; simp [isLineBreak] at h
  simp [splitlinesGo, h, hn]

/-- A boundary character ends the current line (except for the line feed
directly after a carriage return). -/
theorem splitlinesGo_brk {c : Char} {f : Bool} (h : isLineBreak c = true)
    (hng : f = false ∨ c ≠ '\n') (rest acc : List Char) :
    splitlinesGo (c :: rest) acc f = acc.reverse :: splitlinesGo rest [] (c == '\r') := by
  have hfn : (f && (c == '\n')) = false := by
    rcases hng with rfl | hne
    · simp
    · simp [beq_eq_false_iff_ne.mpr hne]
  simp [splitlinesGo, hfn, h]

/-- A run of ordinary characters is accumulated onto `acc`. -/
theorem splitlinesGo_run {a : List Char} (h : ∀ x ∈ a, isLineBreak x = false) :
    ∀ (t acc : List Char), splitlinesGo (a ++ t) acc false = splitlinesGo t (a.reverse ++ acc) false := by
  induction a with
  | nil => intro t acc; simp
  | cons c a ih =>
    intro t acc
    rw [List.cons_append, splitlinesGo_nobrk (h c (List.mem_cons_self c a)),
      ih (fun x hx => h x (List.mem_cons_of_mem c hx))]
    simp

/-- The after-carriage-return flag is irrelevant unless the next character is a
line feed. -/
theorem splitlinesGo_flag {b : List Char} (h : b.head? ≠ some '\n') (acc : List Char) :
    splitlinesGo b acc true = splitlinesGo b acc false := by
  cases b with
  | nil => rfl
  | cons r rs =>
    have hr : r ≠ '\n' := by intro e; subst e; simp at h
    simp [splitlinesGo, beq_eq_false_iff_ne.mpr hr]

/-- splitlines on a break-free prefix, a single boundary character that does
not begin a CRLF pair, and a remainder. -/
theorem pySplitlines_break {a b : List Char} {c : Char}
    (ha : ∀ x ∈ a, isLineBreak x = false) (hc : isLineBreak c = true)
    (hcr : c = '\r' → b.head? ≠ some '\n') :
    pySplitlines (a ++ c :: b) = a :: pySplitlines b := by
  unfold pySplitlines
  rw [splitlinesGo_run ha, splitlinesGo_brk hc (Or.inl rfl)]
  simp only [List.append_nil, List.reverse_reverse]
  cases hcr2 : c == '\r'
  · rfl
  · rw [splitlinesGo_flag (hcr (beq_iff_eq.mp hcr2))]

/-- splitlines on a break-free prefix followed by a CRLF pair: the pair is a
single boundary. -/
theorem pySplitlines_crlf {a : List Char} (ha : ∀ x ∈ a, isLineBreak x = false)
    (b : List Char) : pySplitlines (a ++ '\r' :: '\n' :: b) = a :: pySplitlines b := by
  unfold pySplitlines
  rw [splitlinesGo_run ha, splitlinesGo_brk (by decide) (Or.inl rfl)]
  simp only [List.append_nil, List.reverse_reverse]
  rw [show ('\r' == '\r') = true from rfl, splitlinesGo_skipLF]

/-- splitlines of a break-free text: one line, or no line at all when the text
is empty. -/
theorem pySplitlines_noBreak {a : List Char} (ha : ∀ x ∈ a, isLineBreak x = false) :
    pySplitlines a = if a = [] then [] else [a] := by
  unfold pySplitlines
  rw [show a = a ++ [] by simp, splitlinesGo_run ha]
  simp [splitlinesGo, List.isEmpty_iff]

/-!
Lemmas about splitting on the newline character and joining with it.
-/

theorem splitNL_ne_nil (l : List Char) : splitNL l ≠ [] :=
  List.splitOnP_ne_nil _ l

theorem splitNL_cons_nl (l : List Char) : splitNL ('\n' :: l) = [] :: splitNL l := by
  simp [splitNL, List.splitOn, List.splitOnP_cons]

theorem splitNL_cons {c : Char} (h : c ≠ '\n') (l : List Char) :
    splitNL (c :: l) = (splitNL l).modifyHead (c :: ·) := by
  simp [splitNL, List.splitOn, List.splitOnP_cons, h]

/-- A newline-free prefix lands entirely in the first segment. -/
theorem splitNL_append_noNl {p : List Char} (hp : ∀ x ∈ p, x ≠ '\n') (b : List Char) :
    splitNL (p ++ b) = (splitNL b).modifyHead (p ++ ·) := by
  induction p with
  | nil =>
    obtain ⟨x, xs, hx⟩ : ∃ x xs, splitNL b = x :: xs := by
      cases hsb : splitNL b
      · exact absurd hsb (splitNL_ne_nil b)
      · exact ⟨_, _, rfl⟩
    simp [hx]
  | cons c p ih =>
    rw [List.cons_append, splitNL_cons (hp c (List.mem_cons_self c p)),
      ih (fun x hx => hp x (List.mem_cons_of_mem c hx)), List.modifyHead_modifyHead]
    rfl

/-- An explicit newline closes the current segment: splitting distributes over
it. -/
theorem splitNL_append_break (f B : List Char) :
    splitNL (f ++ '\n' :: B) = splitNL f ++ splitNL B := by
  induction f with
  | nil =>
    rw [List.nil_append, splitNL_cons_nl]
    rfl
  | cons c f ih =>
    by_cases hc : c = '\n'
    · subst hc
      rw [List.cons_append, splitNL_cons_nl, splitNL_cons_nl, ih, List.cons_append]
    · rw [List.cons_append, splitNL_cons hc, splitNL_cons hc, ih]
      obtain ⟨x, xs, hx⟩ : ∃ x xs, splitNL f = x :: xs := by
        cases hsf : splitNL f
        · exact absurd hsf (splitNL_ne_nil f)
        · exact ⟨_, _, rfl⟩
      rw [hx]
      rfl

theorem splitNL_noNl {a : List Char} (h : ∀ x ∈ a, x ≠ '\n') : splitNL a = [a] := by
  refine List.splitOnP_eq_single _ _ ?_
  intro x hx
  simp [h x hx]

theorem joinNL_single (x : List Char) : joinNL [x] = x := by
  simp [joinNL, List.intercalate]

theorem joinNL_cons (x : List Char) {xs : List (List Char)} (h : xs ≠ []) :
    joinNL (x :: xs) = x ++ '\n' :: joinNL xs := by
  cases xs with
  | nil => exact absurd rfl h
  | cons y ys => simp [joinNL, List.intercalate]

theorem joinNL_splitNL (l : List Char) : joinNL (splitNL l) = l :=
  List.intercalate_splitOn l '\n'

theorem joinNL_append {xs ys : List (List Char)} (hx : xs ≠ []) (hy : ys ≠ []) :
    joinNL (xs ++ ys) = joinNL xs ++ '\n' :: joinNL ys := by
  induction xs with
  | nil => exact absurd rfl hx
  | cons x xs ih =>
    cases xs with
    | nil =>
      rw [List.singleton_append, joinNL_cons x hy, joinNL_single]
    | cons y ys =>
      rw [List.cons_append, joinNL_cons x (by simp), joinNL_cons x (by simp),
        ih (by simp), List.append_assoc]
      rfl

/-- Every member of a line list is an inner factor of the joined text. -/
theorem mem_infix_joinNL {x : List Char} {ls : List (List Char)} (h : x ∈ ls) :
    x <:+: joinNL ls := by
  induction ls with
  | nil => cases h
  | cons y ys ih =>
    cases ys with
    | nil =>
      rw [List.mem_singleton] at h
      subst h
      rw [joinNL_single]
    | cons z zs =>
      rw [joinNL_cons y (by simp)]
      rcases List.mem_cons.mp h with h | h
      · subst h
        exact ⟨[], '\n' :: joinNL (z :: zs), by simp⟩
      · obtain ⟨s, t, hst⟩ := ih h
        exact ⟨(y ++ ['\n']) ++ s, t, by simp [← hst]⟩

/-- A contiguous run of lines is an inner factor of the joined text. -/
theorem infix_block_joinNL {M P S : List (List Char)} (hP : P ≠ []) (hM : M ≠ [])
    (hS : S ≠ []) : joinNL M <:+: joinNL (P ++ M ++ S) := by
  rw [List.append_assoc, joinNL_append hP (by simp [hM]), joinNL_append hM hS]
  exact ⟨joinNL P ++ ['\n'], '\n' :: joinNL S, by simp⟩

/-- Splitting the join of a nonempty segment list re-splits each segment. -/
theorem splitNL_joinNL_flatMap {segs : List (List Char)} (h : segs ≠ []) :
    splitNL (joinNL segs) = segs.flatMap splitNL := by
  induction segs with
  | nil => exact absurd rfl h
  | cons s rest ih =>
    cases rest with
    | nil => simp [joinNL_single]
    | cons y ys =>
      rw [joinNL_cons s (by simp), splitNL_append_break, ih (by simp)]
      simp

theorem flatMap_splitNL_ne_nil {segs : List (List Char)} (h : segs ≠ []) :
    segs.flatMap splitNL ≠ [] := by
  cases segs with
  | nil => exact absurd rfl h
  | cons s rest =>
    rw [List.flatMap_cons]
    intro hc
    exact splitNL_ne_nil s (List.append_eq_nil.mp hc).1

/-!
Model of textwrap.dedent, used by build_prompt and for SYSTEM_PROMPT
(guide_travel.py lines 80-113). Following the CPython implementation and its
documentation, lines consisting solely of spaces and tabs are normalized to
empty lines, and the longest common leading run of spaces and tabs over all
remaining nonempty lines is removed from every line.
-/

/-- Space or tab, the characters dedent treats as indentation. -/
def wsChar (c : Char) : Bool := c == ' ' || c == '\t'

/-- A nonempty line consisting solely of spaces and tabs. -/
def wsOnlyLine (l : List Char) : Bool := !l.isEmpty && l.all wsChar

/-- Normalization pass of dedent: a whitespace-only line becomes empty. -/
def normBlankLine (l : List Char) : List Char := if wsOnlyLine l then [] else l

/-- The indentation of a line that has content after its indentation, mirroring
the leading-whitespace pattern of textwrap. -/
def lineIndent (l : List Char) : Option (List Char) :=
  match l.dropWhile wsChar with
  | [] => none
  | c :: _ => if c = '\n' then none else some (l.takeWhile wsChar)

/-- Longest common prefix of two character lists. -/
def commonPrefix : List Char → List Char → List Char
  | a :: as, b :: bs => if a = b then a :: commonPrefix as bs else []
  | _, _ => []

/-- One step of the margin fold of textwrap.dedent. -/
def updateMargin (m : Option (List Char)) (ind : List Char) : Option (List Char) :=
  match m with
  | none => some ind
  | some mg =>
    if mg.isPrefixOf ind then some mg
    else if ind.isPrefixOf mg then some ind
    else some (commonPrefix mg ind)

/-- The common margin of a list of lines in the sense of textwrap.dedent. -/
def dedentMargin (lines : List (List Char)) : Option (List Char) :=
  (lines.filterMap lineIndent).foldl updateMargin none

/-- Removal of the margin from one line (the per-line effect of the final
anchored substitution in textwrap.dedent). -/
def stripMarginLine (mg l : List Char) : List Char :=
  if mg.isPrefixOf l then l.drop mg.length else l

/-- Model of textwrap.dedent. -/
def pyDedent (t : List Char) : List Char :=
  let normed := (splitNL t).map normBlankLine
  match dedentMargin normed with
  | none => joinNL normed
  | some mg => if mg = [] then joinNL normed else joinNL (normed.map (stripMarginLine mg))

theorem updateMargin_nil (m : Option (List Char)) : updateMargin m [] = some [] := by
  cases m with
  | none => rfl
  | some mg =>
    cases mg with
    | nil => rfl
    | cons c cs => simp [updateMargin, List.isPrefixOf]

theorem foldl_updateMargin_nil (is : List (List Char)) :
    is.foldl updateMargin (some []) = some [] := by
  induction is with
  | nil => rfl
  | cons i is ih =>
    rw [List.foldl_cons, show updateMargin (some []) i = some [] by
      simp [updateMargin, List.isPrefixOf], ih]

/-- As soon as one line has empty indentation, the dedent margin is empty. -/
theorem dedentMargin_eq_nil {lines : List (List Char)}
    (h : ∃ l ∈ lines, lineIndent l = some []) : dedentMargin lines = some [] := by
  obtain ⟨l, hl, hind⟩ := h
  have hmem : [] ∈ lines.filterMap lineIndent := List.mem_filterMap.mpr ⟨l, hl, hind⟩
  obtain ⟨s, t, hst⟩ := List.append_of_mem hmem
  unfold dedentMargin
  rw [hst, List.foldl_append, List.foldl_cons, updateMargin_nil, foldl_updateMargin_nil]

/-- With an empty margin, dedent only performs the blank-line normalization. -/
theorem pyDedent_of_margin_nil {t : List Char}
    (h : dedentMargin ((splitNL t).map normBlankLine) = some []) :
    pyDedent t = joinNL ((splitNL t).map normBlankLine) := by
  dsimp only [pyDedent]
  rw [h]
  rfl

theorem wsOnlyLine_cons_false {c : Char} (h : wsChar c = false) (l : List Char) :
    wsOnlyLine (c :: l) = false := by
  simp [wsOnlyLine, h]

theorem normBlankLine_cons {c : Char} (h : wsChar c = false) (l : List Char) :
    normBlankLine (c :: l) = c :: l := by
  simp [normBlankLine, wsOnlyLine_cons_false h]

theorem lineIndent_cons {c : Char} (h : wsChar c = false) (h2 : c ≠ '\n') (l : List Char) :
    lineIndent (c :: l) = some [] := by
  simp [lineIndent, List.dropWhile_cons, List.takeWhile_cons, h, h2]

/-!
Model of the prompt builder (guide_travel.py lines 80-113).
-/

/-- Python `x or d` on strings: the fallback `d` replaces an empty `x`. -/
def pyOr (x d : List Char) : List Char := if x = [] then d else x

/-- Python `", ".join(xs)`. -/
def joinComma (xs : List (List Char)) : List Char := List.intercalate (str ", ") xs

/-- The template lines of the f-string of build_prompt (guide_travel.py lines
96-113), in source order; joining them with newlines yields exactly the
f-string value (its leading and trailing newlines give the empty first and
last segments). -/
def promptSegs (cities : List (List Char)) (days : ℤ) (interests : List (List Char))
    (guardrails : List Char) (num_people : ℤ) (ages : List Char) : List (List Char) :=
  [ [],
    str "Cities: " ++ joinComma cities,
    str "Days per city: " ++ str (toString days),
    [],
    str "Travel Group:",
    str "- Number of people: " ++ str (toString num_people),
    str "- Ages: " ++ pyOr ages (str "Not specified"),
    [],
    str "Interests: " ++ pyOr (joinComma interests) (str "General sightseeing"),
    str "Guardrails: " ++ pyOr guardrails (str "None"),
    [],
    str "Guidelines:",
    str "- Include kid-friendly or senior-friendly activities if applicable",
    str "- Avoid physically demanding activities when younger kids or seniors are present",
    str "- Balance rest and exploration",
    [],
    str "Generate a practical itinerary.",
    [] ]

/-- Model of build_prompt (guide_travel.py lines 95-113): the dedented
f-string. -/
def build_prompt (cities : List (List Char)) (days : ℤ) (interests : List (List Char))
    (guardrails : List Char) (num_people : ℤ) (ages : List Char) : List Char :=
  pyDedent (joinNL (promptSegs cities days interests guardrails num_people ages))

/-- The template lines of the SYSTEM_PROMPT literal (guide_travel.py lines
80-93); joining them with newlines yields exactly the literal passed to
dedent. -/
def systemPromptSegs : List (List Char) :=
  [ [],
    str "You are a professional travel planner.",
    str "Create a realistic, day-by-day itinerary.",
    str "Adapt activities based on ages (kids, adults, seniors).",
    str "Respect guardrails strictly.",
    [],
    str "Format:",
    [],
    str "## City Name",
    str "### Day 1",
    str "- Morning:",
    str "- Afternoon:",
    str "- Evening:",
    [] ]

/-- Model of SYSTEM_PROMPT (guide_travel.py lines 80-93). -/
def SYSTEM_PROMPT : List Char := pyDedent (joinNL systemPromptSegs)

/-- Cleanliness condition on an interpolated field: no line of the field after
its first line consists solely of spaces and tabs (such lines are erased by the
dedent pass wrapped around the f-string). -/
def tailLinesClean (f : List Char) : Prop :=
  ∀ l ∈ (splitNL f).tail, wsOnlyLine l = false

theorem promptSegs_ne_nil (cities : List (List Char)) (days : ℤ)
    (interests : List (List Char)) (guardrails : List Char) (num_people : ℤ)
    (ages : List Char) :
    promptSegs cities days interests guardrails num_people ages ≠ [] := by
  simp [promptSegs]

theorem exists_cons_of_splitNL (l : List Char) : ∃ x xs, splitNL l = x :: xs := by
  cases hs : splitNL l
  · exact absurd hs (splitNL_ne_nil l)
  · exact ⟨_, _, rfl⟩

/-- The raw prompt text always has a line of zero indentation (the Cities
line), so the dedent margin of the prompt is empty. -/
theorem prompt_margin (cities : List (List Char)) (days : ℤ)
    (interests : List (List Char)) (guardrails : List Char) (num_people : ℤ)
    (ages : List Char) :
    dedentMargin (((promptSegs cities days interests guardrails num_people
      ages).flatMap splitNL).map normBlankLine) = some [] := by
  apply dedentMargin_eq_nil
  obtain ⟨j0, js, hj⟩ := exists_cons_of_splitNL (joinComma cities)
  have hC : str "Cities: " ++ j0 = 'C' :: (str "ities: " ++ j0) := rfl
  have hshape : splitNL (str "Cities: " ++ joinComma cities) =
      (str "Cities: " ++ j0) :: js := by
    rw [splitNL_append_noNl (by decide), hj]
    rfl
  have hmem : str "Cities: " ++ j0 ∈ (promptSegs cities days interests guardrails
      num_people ages).flatMap splitNL :=
    List.mem_flatMap.mpr ⟨str "Cities: " ++ joinComma cities, by simp [promptSegs],
      by rw [hshape]; exact List.mem_cons_self _ _⟩
  refine ⟨str "Cities: " ++ j0, ?_, ?_⟩
  · exact List.mem_map.mpr ⟨str "Cities: " ++ j0, hmem,
      by rw [hC, normBlankLine_cons (by decide)]⟩
  · rw [hC]
    exact lineIndent_cons (by decide) (by decide) _

/-- The built prompt is the blank-normalized join of the re-split template
segments: the dedent margin is empty, so only blank-line normalization acts. -/
theorem build_prompt_norm (cities : List (List Char)) (days : ℤ)
    (interests : List (List Char)) (guardrails : List Char) (num_people : ℤ)
    (ages : List Char) :
    build_prompt cities days interests guardrails num_people ages =
      joinNL (((promptSegs cities days interests guardrails num_people
        ages).flatMap splitNL).map normBlankLine) := by
  unfold build_prompt
  rw [pyDedent_of_margin_nil, splitNL_joinNL_flatMap (promptSegs_ne_nil _ _ _ _ _ _)]
  rw [splitNL_joinNL_flatMap (promptSegs_ne_nil _ _ _ _ _ _)]
  exact prompt_margin _ _ _ _ _ _

/-- A template segment that is a single clean line survives into the built
prompt as an inner factor. -/
theorem prompt_line_factor {cities : List (List Char)} {days : ℤ}
    {interests : List (List Char)} {guardrails : List Char} {num_people : ℤ}
    {ages : List Char} {l : List Char}
    (hseg : l ∈ promptSegs cities days interests guardrails num_people ages)
    (hnl : splitNL l = [l]) (hnb : normBlankLine l = l) :
    l <:+: build_prompt cities days interests guardrails num_people ages := by
  rw [build_prompt_norm]
  apply mem_infix_joinNL
  exact List.mem_map.mpr ⟨l,
    List.mem_flatMap.mpr ⟨l, hseg, by rw [hnl]; exact List.mem_cons_self _ _⟩, hnb⟩

theorem joinNL_cons_head (p x : List Char) (xs : List (List Char)) :
    joinNL ((p ++ x) :: xs) = p ++ joinNL (x :: xs) := by
  cases xs with
  | nil => rw [joinNL_single, joinNL_single]
  | cons y ys =>
    rw [joinNL_cons (p ++ x) (by simp : y :: ys ≠ []),
      joinNL_cons x (by simp : y :: ys ≠ []), List.append_assoc]

/-- An interpolated field placed after a newline-free prefix whose first
character is not indentation survives into the built prompt as an inner factor,
provided no line of the field after the first is whitespace-only. -/
theorem prompt_field_factor {cities : List (List Char)} {days : ℤ}
    {interests : List (List Char)} {guardrails : List Char} {num_people : ℤ}
    {ages : List Char} {A B : List (List Char)} {pre f : List Char}
    (hsegs : promptSegs cities days interests guardrails num_people ages =
      A ++ (pre ++ f) :: B)
    (hA : A ≠ []) (hB : B ≠ [])
    (hpre : ∀ x ∈ pre, x ≠ '\n')
    (hpre2 : ∃ c0 p, pre = c0 :: p ∧ wsChar c0 = false)
    (hf : tailLinesClean f) :
    f <:+: build_prompt cities days interests guardrails num_people ages := by
  rw [build_prompt_norm, hsegs]
  obtain ⟨f0, fs, hfsplit⟩ := exists_cons_of_splitNL f
  have hsplit : splitNL (pre ++ f) = (pre ++ f0) :: fs := by
    rw [splitNL_append_noNl hpre, hfsplit]
    rfl
  rw [List.flatMap_append, List.flatMap_cons, hsplit, ← List.append_assoc,
    List.map_append, List.map_append]
  have hM : ((pre ++ f0) :: fs).map normBlankLine = (pre ++ f0) :: fs := by
    obtain ⟨c0, p, hp, hc0⟩ := hpre2
    rw [List.map_cons]
    have htail : ∀ x ∈ fs, normBlankLine x = x := by
      intro x hx
      have hw := hf x (by rw [hfsplit]; exact hx)
      simp [normBlankLine, hw]
    rw [show fs.map normBlankLine = fs from
      (List.map_congr_left htail).trans (List.map_id fs)]
    rw [hp, List.cons_append, normBlankLine_cons hc0]
  rw [hM]
  have hP : (A.flatMap splitNL).map normBlankLine ≠ [] := by
    simp [flatMap_splitNL_ne_nil hA]
  have hS : (B.flatMap splitNL).map normBlankLine ≠ [] := by
    simp [flatMap_splitNL_ne_nil hB]
  refine List.IsInfix.trans ?_ (infix_block_joinNL hP (by simp) hS)
  rw [joinNL_cons_head, ← hfsplit, joinNL_splitNL]
  exact ⟨pre, [], by simp⟩

/-!
Model of the session state and of the submission flow (guide_travel.py lines
47-59, 115-124, 230-268).
-/

/-- The trip parameters and derived itinerary text held in the session after
initialization, with the field names of the session keys. -/
structure TripState where
  cities : List Char
  days : ℤ
  interests : List (List Char)
  guardrails : List Char
  daily_budget : ℚ
  num_people : ℤ
  ages : List Char
  plan_md : List Char
deriving DecidableEq

/-- Failure conditions of the external generation call: any exception raised by
the client (network, authentication, quota or rate limit) or a response with no
first choice. -/
inductive GenFailure where
  | network
  | auth
  | quota
  | badResponse
deriving DecidableEq

/-- One choice of the chat completion response. -/
structure ApiMessage where
  content : List Char
deriving DecidableEq

/-- The chat completion response object. -/
structure ApiResponse where
  choices : List ApiMessage
deriving DecidableEq

/-- Model of generate_itinerary (guide_travel.py lines 115-124). The outcome of
the external chat.completions.create call is a parameter: either a raised
failure or a response object. The function adds no handling of its own: a
failure propagates unchanged, and a response without a first choice raises at
response.choices[0], modelled as the badResponse failure. -/
def generate_itinerary (call : Except GenFailure ApiResponse) :
    Except GenFailure (List Char) :=
  match call with
  | Except.error e => Except.error e
  | Except.ok r =>
    match r.choices with
    | [] => Except.error GenFailure.badResponse
    | m :: _ => Except.ok m.content

/-- The raw session mapping: each key either absent or holding a value. -/
structure RawSession where
  cities : Option (List Char)
  days : Option ℤ
  interests : Option (List (List Char))
  guardrails : Option (List Char)
  daily_budget : Option ℚ
  num_people : Option ℤ
  ages : Option (List Char)
  plan_md : Option (List Char)
deriving DecidableEq

/-- Python dict.setdefault: keep an existing value, otherwise install the
default. -/
def setdefault {α : Type} (cur : Option α) (d : α) : Option α := some (cur.getD d)

/-- Model of init_state (guide_travel.py lines 47-55). -/
def init_state (s : RawSession) : RawSession where
  cities := setdefault s.cities []
  days := setdefault s.days 3
  interests := setdefault s.interests []
  guardrails := setdefault s.guardrails []
  daily_budget := setdefault s.daily_budget 300
  num_people := setdefault s.num_people 1
  ages := setdefault s.ages []
  plan_md := setdefault s.plan_md []

/-- Model of st.session_state.clear(): every key is removed. -/
def sessionClear (_ : RawSession) : RawSession :=
  ⟨none, none, none, none, none, none, none, none⟩

/-- Model of reset_all (guide_travel.py lines 57-59): clear the session, then
reinitialize it. -/
def reset_all (s : RawSession) : RawSession := init_state (sessionClear s)

/-- Observable effects of one submission, in order of occurrence: a warning
shown to the user, a prompt constructed by build_prompt, a network call to the
generation service (system instruction and user turn), or an invocation of the
Budget Estimator (total days, daily budget, traveler count). -/
inductive Effect where
  | warn : List Char → Effect
  | promptBuilt : List Char → Effect
  | apiCall : List Char → List Char → Effect
  | estimateCall : ℚ → ℚ → ℚ → Effect
deriving DecidableEq

/-- Whether an effect is a network call to the generation service. -/
def isApiCall : Effect → Bool
  | Effect.apiCall _ _ => true
  | _ => false

/-- The city list computed at the start of a submission (guide_travel.py line
231): split the text area into lines, strip each line, drop blanks. -/
def parseCities (text : List Char) : List (List Char) :=
  ((pySplitlines text).map pyStrip).filter (fun c => c ≠ [])

/-- Model of the submission handler (guide_travel.py lines 230-245): with no
cities a warning is shown and nothing else happens; otherwise the prompt is
built, the service is called once, and on success the returned text is stored
in plan_md, while a failure leaves the state unchanged and propagates. The
last component is the outcome the caller observes. -/
def submitted (s : TripState) (call : Except GenFailure ApiResponse) :
    TripState × List Effect × Except GenFailure Unit :=
  let cities := parseCities s.cities
  if cities = [] then
    (s, [Effect.warn (str "Please enter at least one city.")], Except.ok ())
  else
    let prompt := build_prompt cities s.days s.interests s.guardrails s.num_people s.ages
    match generate_itinerary call with
    | Except.ok text =>
      ({ s with plan_md := text },
        [Effect.promptBuilt prompt, Effect.apiCall SYSTEM_PROMPT prompt],
        Except.ok ())
    | Except.error e =>
      (s, [Effect.promptBuilt prompt, Effect.apiCall SYSTEM_PROMPT prompt],
        Except.error e)

/-- Model of the budget part of the output section (guide_travel.py lines
250-273): the Budget Estimator runs only when some itinerary text is stored,
with the recomputed total days, the daily budget and the traveler count. -/
def outputSection (s : TripState) : List Effect :=
  if s.plan_md = [] then []
  else
    [Effect.estimateCall ((total_days s.days s.cities : ℤ) : ℚ) s.daily_budget
      (s.num_people : ℚ)]

instance decTailLinesClean (f : List Char) : Decidable (tailLinesClean f) := by
  unfold tailLinesClean
  infer_instance

/-!
The claims.
-/

/-- C1: for totalDays at least 1, dailyBudgetPerPerson at least 0 and numPeople
at least 1, the four category amounts returned by estimate_budget sum to
dailyBudgetPerPerson * numPeople * totalDays (exactly, in the rational model of
the float arithmetic), and the returned total equals that sum. -/
theorem estimate_budget_sum (totalDays dailyBudget numPeople : ℚ)
    (h1 : 1 ≤ totalDays) (h2 : 0 ≤ dailyBudget) (h3 : 1 ≤ numPeople) :
    ((estimate_budget totalDays dailyBudget numPeople).1.map Prod.snd).sum =
      dailyBudget * numPeople * totalDays ∧
    (estimate_budget totalDays dailyBudget numPeople).2 =
      ((estimate_budget totalDays dailyBudget numPeople).1.map Prod.snd).sum := by
  constructor
  · simp [estimate_budget]
    ring
  · rfl

theorem estimate_budget_sum_witness :
    (1 : ℚ) ≤ 5 ∧ (0 : ℚ) ≤ 100 ∧ (1 : ℚ) ≤ 3 ∧
    (((estimate_budget 5 100 3).1.map Prod.snd).sum = 100 * 3 * 5 ∧
      (estimate_budget 5 100 3).2 = ((estimate_budget 5 100 3).1.map Prod.snd).sum) :=
  ⟨by norm_num, by norm_num, by norm_num,
    estimate_budget_sum 5 100 3 (by norm_num) (by norm_num) (by norm_num)⟩

/-- C2: in the scenario with cities Rome and Paris, 3 days per city, 2 people
and a daily budget of 300, the pipeline computes totalDays = 3 * 2 = 6 and
estimate_budget applied to those 6 days returns a total of 3600, split as
Accommodation 1440, Food 900, Transport 540, Activities 720. -/
theorem scenario_rome_paris :
    total_days 3 (str "Rome, Italy\nParis, France") = 6 ∧
    estimate_budget ((total_days 3 (str "Rome, Italy\nParis, France") : ℤ) : ℚ) 300 2 =
      ([("Accommodation", 1440), ("Food", 900), ("Transport", 540),
        ("Activities", 720)], 3600) := by
  have h6 : total_days 3 (str "Rome, Italy\nParis, France") = 6 := by decide
  refine ⟨h6, ?_⟩
  rw [h6]
  norm_num [estimate_budget]

/-- C10: estimate_budget is total on all rational inputs, also outside the
stated preconditions: each category amount is
dailyBudget * numPeople * weight * days with the weights 0.4, 0.25, 0.15 and
0.2, the returned total is the sum of the four amounts, and days = 0 yields an
all-zero breakdown and a zero total rather than an error. -/
theorem estimate_budget_total_function (days dailyBudget numPeople : ℚ) :
    (estimate_budget days dailyBudget numPeople).1 =
      [("Accommodation", dailyBudget * numPeople * 0.4 * days),
       ("Food", dailyBudget * numPeople * 0.25 * days),
       ("Transport", dailyBudget * numPeople * 0.15 * days),
       ("Activities", dailyBudget * numPeople * 0.2 * days)] ∧
    (estimate_budget days dailyBudget numPeople).2 =
      dailyBudget * numPeople * 0.4 * days + dailyBudget * numPeople * 0.25 * days +
      dailyBudget * numPeople * 0.15 * days + dailyBudget * numPeople * 0.2 * days ∧
    (days = 0 →
      (estimate_budget days dailyBudget numPeople).1.map Prod.snd = [0, 0, 0, 0] ∧
      (estimate_budget days dailyBudget numPeople).2 = 0) := by
  refine ⟨rfl, ?_, ?_⟩
  · simp [estimate_budget]
    ring
  · rintro rfl
    constructor <;> simp [estimate_budget]

theorem estimate_budget_total_function_witness :
    (0 : ℚ) = 0 ∧
    ((estimate_budget 0 7 2).1.map Prod.snd = [0, 0, 0, 0] ∧
      (estimate_budget 0 7 2).2 = 0) :=
  ⟨rfl, (estimate_budget_total_function 0 7 2).2.2 rfl⟩

/-- C3: an itinerary text made of one level-2 heading line followed by two
bullet lines renders as exactly one heading block and then two separate
single-item bullet entries, in that order, each followed by the fixed
spacer. -/
theorem renderer_heading_two_bullets (h b1 b2 : List Char)
    (hh : (str "## ").isPrefixOf h = true)
    (hb1 : (str "- ").isPrefixOf b1 = true)
    (hb2 : (str "- ").isPrefixOf b2 = true)
    (hhc : ∀ c ∈ h, isLineBreak c = false)
    (hb1c : ∀ c ∈ b1, isLineBreak c = false)
    (hb2c : ∀ c ∈ b2, isLineBreak c = false) :
    markdown_to_flowables (h ++ '\n' :: (b1 ++ '\n' :: b2)) =
      [Flowable.heading (h.drop 3), Flowable.spacer,
       Flowable.bullet (b1.drop 2), Flowable.spacer,
       Flowable.bullet (b2.drop 2), Flowable.spacer] := by
  obtain ⟨t2, ht2⟩ := List.isPrefixOf_iff_prefix.mp hb2
  have hb2ne : b2 ≠ [] := by
    rw [← ht2]
    intro hcontra
    exact absurd (List.append_eq_nil.mp hcontra).1 (by decide)
  have hsplit : pySplitlines (h ++ '\n' :: (b1 ++ '\n' :: b2)) = [h, b1, b2] := by
    rw [pySplitlines_break hhc (by decide) (fun hc => absurd hc (by decide)),
      pySplitlines_break hb1c (by decide) (fun hc => absurd hc (by decide)),
      pySplitlines_noBreak hb2c, if_neg hb2ne]
  have ch : classifyLine h = Flowable.heading (h.drop 3) := by
    simp [classifyLine, hh]
  have cb : ∀ b, (str "- ").isPrefixOf b = true →
      classifyLine b = Flowable.bullet (b.drop 2) := by
    intro b hb
    obtain ⟨t, ht⟩ := List.isPrefixOf_iff_prefix.mp hb
    have hnot : (str "## ").isPrefixOf b = false := by rw [← ht]; rfl
    simp [classifyLine, hnot, hb]
  unfold markdown_to_flowables
  rw [hsplit]
  simp [ch, cb b1 hb1, cb b2 hb2]

theorem renderer_heading_two_bullets_witness :
    markdown_to_flowables (str "## Rome" ++ '\n' :: (str "- Colosseum" ++ '\n' :: str "- Forum")) =
      [Flowable.heading ((str "## Rome").drop 3), Flowable.spacer,
       Flowable.bullet ((str "- Colosseum").drop 2), Flowable.spacer,
       Flowable.bullet ((str "- Forum").drop 2), Flowable.spacer] :=
  renderer_heading_two_bullets _ _ _ (by decide) (by decide) (by decide)
    (by decide) (by decide) (by decide)

/-- C4 as stated is false at the input "a" CR "b": the renderer splits with
str.splitlines, for which a carriage return alone starts a new line, so its
line sequence differs from the split of the input on the newline character
only, and the renderer classifies two paragraphs. -/
theorem renderer_split_cr_counterexample :
    pySplitlines (str "a\rb") = [str "a", str "b"] ∧
    splitNL (str "a\rb") = [str "a\rb"] ∧
    pySplitlines (str "a\rb") ≠ splitNL (str "a\rb") ∧
    markdown_to_flowables (str "a\rb") =
      [Flowable.para (str "a"), Flowable.spacer,
       Flowable.para (str "b"), Flowable.spacer] :=
  ⟨by decide, by decide, by decide, by decide⟩

/-- C4 amended: the renderer splits the text by Python splitlines semantics:
every line boundary character ends a line (newline, carriage return, vertical
tab, form feed, the separators x1c, x1d, x1e, x85, u2028, u2029), a CRLF pair
counts as a single boundary, and a trailing boundary produces no final empty
line. -/
theorem renderer_line_splitting (a b : List Char) (c : Char)
    (ha : ∀ x ∈ a, isLineBreak x = false) :
    (isLineBreak c = true → (c = '\r' → b.head? ≠ some '\n') →
      pySplitlines (a ++ c :: b) = a :: pySplitlines b) ∧
    pySplitlines (a ++ '\r' :: '\n' :: b) = a :: pySplitlines b ∧
    (a ≠ [] → pySplitlines (a ++ [c]) =
      if isLineBreak c then [a] else [a ++ [c]]) := by
  refine ⟨fun hc hcr => pySplitlines_break ha hc hcr, pySplitlines_crlf ha b, ?_⟩
  intro hne
  by_cases hc : isLineBreak c = true
  · rw [pySplitlines_break ha hc (fun _ => by simp), if_pos hc]
    rfl
  · have hcf : isLineBreak c = false := by simpa using hc
    have hall : ∀ x ∈ a ++ [c], isLineBreak x = false := by
      intro x hx
      rcases List.mem_append.mp hx with hx | hx
      · exact ha x hx
      · rw [List.mem_singleton.mp hx]
        exact hcf
    rw [pySplitlines_noBreak hall, if_neg (show ¬(a ++ [c] = []) by simp), hcf]
    simp

theorem renderer_line_splitting_witness :
    (pySplitlines (str "ab" ++ '\x0b' :: str "cd") = str "ab" :: pySplitlines (str "cd")) ∧
    (pySplitlines (str "ab" ++ '\r' :: '\n' :: str "cd") = str "ab" :: pySplitlines (str "cd")) ∧
    (pySplitlines (str "ab" ++ ['\n']) =
      if isLineBreak '\n' then [str "ab"] else [str "ab" ++ ['\n']]) :=
  ⟨(renderer_line_splitting (str "ab") (str "cd") '\x0b' (by decide)).1 (by decide)
      (fun hc => absurd hc (by decide)),
   (renderer_line_splitting (str "ab") (str "cd") '\x0b' (by decide)).2.1,
   (renderer_line_splitting (str "ab") (str "cd") '\n' (by decide)).2.2 (by decide)⟩

/-- C9: the space in the markers is required: a line starting with two hash
marks but not followed by a space (in particular the level-3 heading line of
the Day sections that the SYSTEM_PROMPT format template requests) and a line
starting with a dash but not followed by a space are both classified as plain
paragraphs, never as heading blocks or bullet entries; and the template does
contain the line requesting level-3 Day headings. -/
theorem classify_requires_marker_space :
    (∀ l : List Char, (str "##").isPrefixOf l = true → (str "## ").isPrefixOf l = false →
      classifyLine l = Flowable.para l) ∧
    (∀ l : List Char, (str "-").isPrefixOf l = true → (str "- ").isPrefixOf l = false →
      classifyLine l = Flowable.para l) ∧
    str "### Day 1" ∈ pySplitlines SYSTEM_PROMPT ∧
    classifyLine (str "### Day 1") = Flowable.para (str "### Day 1") := by
  refine ⟨?_, ?_, by decide, by decide⟩
  · intro l h1 h2
    obtain ⟨t, ht⟩ := List.isPrefixOf_iff_prefix.mp h1
    have hno : (str "- ").isPrefixOf l = false := by rw [← ht]; rfl
    have hne : l ≠ [] := by
      rw [← ht]
      intro hcontra
      exact absurd (List.append_eq_nil.mp hcontra).1 (by decide)
    simp [classifyLine, h2, hno, hne]
  · intro l h1 h2
    obtain ⟨t, ht⟩ := List.isPrefixOf_iff_prefix.mp h1
    have hno : (str "## ").isPrefixOf l = false := by rw [← ht]; rfl
    have hne : l ≠ [] := by
      rw [← ht]
      intro hcontra
      exact absurd (List.append_eq_nil.mp hcontra).1 (by decide)
    simp [classifyLine, h2, hno, hne]

theorem classify_requires_marker_space_witness :
    classifyLine (str "### Day 1") = Flowable.para (str "### Day 1") ∧
    classifyLine (str "-Morning") = Flowable.para (str "-Morning") :=
  ⟨classify_requires_marker_space.1 (str "### Day 1") (by decide) (by decide),
   classify_requires_marker_space.2.1 (str "-Morning") (by decide) (by decide)⟩

theorem promptSegs_decomp_ages (cities : List (List Char)) (days : ℤ)
    (interests : List (List Char)) (guardrails : List Char) (num_people : ℤ)
    (ages : List Char) :
    promptSegs cities days interests guardrails num_people ages =
      [[], str "Cities: " ++ joinComma cities,
       str "Days per city: " ++ str (toString days), [], str "Travel Group:",
       str "- Number of people: " ++ str (toString num_people)] ++
      (str "- Ages: " ++ pyOr ages (str "Not specified")) ::
      [[], str "Interests: " ++ pyOr (joinComma interests) (str "General sightseeing"),
       str "Guardrails: " ++ pyOr guardrails (str "None"), [], str "Guidelines:",
       str "- Include kid-friendly or senior-friendly activities if applicable",
       str "- Avoid physically demanding activities when younger kids or seniors are present",
       str "- Balance rest and exploration", [], str "Generate a practical itinerary.", []] := rfl

theorem promptSegs_decomp_interests (cities : List (List Char)) (days : ℤ)
    (interests : List (List Char)) (guardrails : List Char) (num_people : ℤ)
    (ages : List Char) :
    promptSegs cities days interests guardrails num_people ages =
      [[], str "Cities: " ++ joinComma cities,
       str "Days per city: " ++ str (toString days), [], str "Travel Group:",
       str "- Number of people: " ++ str (toString num_people),
       str "- Ages: " ++ pyOr ages (str "Not specified"), []] ++
      (str "Interests: " ++ pyOr (joinComma interests) (str "General sightseeing")) ::
      [str "Guardrails: " ++ pyOr guardrails (str "None"), [], str "Guidelines:",
       str "- Include kid-friendly or senior-friendly activities if applicable",
       str "- Avoid physically demanding activities when younger kids or seniors are present",
       str "- Balance rest and exploration", [], str "Generate a practical itinerary.", []] := rfl

theorem promptSegs_decomp_guardrails (cities : List (List Char)) (days : ℤ)
    (interests : List (List Char)) (guardrails : List Char) (num_people : ℤ)
    (ages : List Char) :
    promptSegs cities days interests guardrails num_people ages =
      [[], str "Cities: " ++ joinComma cities,
       str "Days per city: " ++ str (toString days), [], str "Travel Group:",
       str "- Number of people: " ++ str (toString num_people),
       str "- Ages: " ++ pyOr ages (str "Not specified"), [],
       str "Interests: " ++ pyOr (joinComma interests) (str "General sightseeing")] ++
      (str "Guardrails: " ++ pyOr guardrails (str "None")) ::
      [[], str "Guidelines:",
       str "- Include kid-friendly or senior-friendly activities if applicable",
       str "- Avoid physically demanding activities when younger kids or seniors are present",
       str "- Balance rest and exploration", [], str "Generate a practical itinerary.", []] := rfl

/-- C5 amended: the built request text contains the fallback "Not specified"
whenever ages is empty, "General sightseeing" whenever interests is empty, and
"None" whenever guardrails is empty; and a field value reappears verbatim as an
inner factor of the request text provided no line of the value after its first
line consists solely of spaces and tabs (the dedent pass wrapped around the
f-string erases such whitespace-only lines, see the counterexample). -/
theorem build_prompt_fallbacks (cities : List (List Char)) (days : ℤ)
    (interests : List (List Char)) (guardrails : List Char) (num_people : ℤ)
    (ages : List Char) :
    (ages = [] → str "Not specified" <:+:
      build_prompt cities days interests guardrails num_people ages) ∧
    (interests = [] → str "General sightseeing" <:+:
      build_prompt cities days interests guardrails num_people ages) ∧
    (guardrails = [] → str "None" <:+:
      build_prompt cities days interests guardrails num_people ages) ∧
    (tailLinesClean ages → ages <:+:
      build_prompt cities days interests guardrails num_people ages) ∧
    (tailLinesClean (joinComma interests) → joinComma interests <:+:
      build_prompt cities days interests guardrails num_people ages) ∧
    (tailLinesClean guardrails → guardrails <:+:
      build_prompt cities days interests guardrails num_people ages) := by
  refine ⟨?_, ?_, ?_, ?_, ?_, ?_⟩
  · rintro rfl
    refine List.IsInfix.trans ⟨str "- Ages: ", [], by rfl⟩ (prompt_line_factor ?_ ?_ ?_)
    · rw [promptSegs_decomp_ages]
      exact List.mem_append_right _ (List.mem_cons_self _ _)
    · decide
    · decide
  · rintro rfl
    refine List.IsInfix.trans ⟨str "Interests: ", [], by rfl⟩ (prompt_line_factor ?_ ?_ ?_)
    · rw [promptSegs_decomp_interests]
      exact List.mem_append_right _ (List.mem_cons_self _ _)
    · decide
    · decide
  · rintro rfl
    refine List.IsInfix.trans ⟨str "Guardrails: ", [], by rfl⟩ (prompt_line_factor ?_ ?_ ?_)
    · rw [promptSegs_decomp_guardrails]
      exact List.mem_append_right _ (List.mem_cons_self _ _)
    · decide
    · decide
  · intro hclean
    by_cases hempty : ages = []
    · rw [hempty]
      exact List.nil_infix
    · have hsegs2 := promptSegs_decomp_ages cities days interests guardrails num_people ages
      rw [show pyOr ages (str "Not specified") = ages from if_neg hempty] at hsegs2
      exact prompt_field_factor hsegs2 (by simp) (by simp) (by decide)
        ⟨'-', str " Ages: ", rfl, by decide⟩ hclean
  · intro hclean
    by_cases hempty : joinComma interests = []
    · rw [hempty]
      exact List.nil_infix
    · have hsegs2 := promptSegs_decomp_interests cities days interests guardrails num_people ages
      rw [show pyOr (joinComma interests) (str "General sightseeing") = joinComma interests from
        if_neg hempty] at hsegs2
      exact prompt_field_factor hsegs2 (by simp) (by simp) (by decide)
        ⟨'I', str "nterests: ", rfl, by decide⟩ hclean
  · intro hclean
    by_cases hempty : guardrails = []
    · rw [hempty]
      exact List.nil_infix
    · have hsegs2 := promptSegs_decomp_guardrails cities days interests guardrails num_people ages
      rw [show pyOr guardrails (str "None") = guardrails from if_neg hempty] at hsegs2
      exact prompt_field_factor hsegs2 (by simp) (by simp) (by decide)
        ⟨'G', str "uardrails: ", rfl, by decide⟩ hclean

set_option maxRecDepth 8000 in
theorem build_prompt_fallbacks_witness :
    (str "Not specified" <:+: build_prompt [str "Rome"] 3 [] [] 2 []) ∧
    (str "General sightseeing" <:+: build_prompt [str "Rome"] 3 [] [] 2 []) ∧
    (str "None" <:+: build_prompt [str "Rome"] 3 [] [] 2 []) ∧
    (str "5, 12" <:+:
      build_prompt [str "Rome"] 3 [str "Museums"] (str "no buses") 2 (str "5, 12")) ∧
    (joinComma [str "Museums"] <:+:
      build_prompt [str "Rome"] 3 [str "Museums"] (str "no buses") 2 (str "5, 12")) ∧
    (str "no buses" <:+:
      build_prompt [str "Rome"] 3 [str "Museums"] (str "no buses") 2 (str "5, 12")) :=
  ⟨(build_prompt_fallbacks [str "Rome"] 3 [] [] 2 []).1 rfl,
   (build_prompt_fallbacks [str "Rome"] 3 [] [] 2 []).2.1 rfl,
   (build_prompt_fallbacks [str "Rome"] 3 [] [] 2 []).2.2.1 rfl,
   (build_prompt_fallbacks [str "Rome"] 3 [str "Museums"] (str "no buses") 2
     (str "5, 12")).2.2.2.1 (by decide),
   (build_prompt_fallbacks [str "Rome"] 3 [str "Museums"] (str "no buses") 2
     (str "5, 12")).2.2.2.2.1 (by decide),
   (build_prompt_fallbacks [str "Rome"] 3 [str "Museums"] (str "no buses") 2
     (str "5, 12")).2.2.2.2.2 (by decide)⟩

set_option maxRecDepth 8000 in
/-- C5 as stated is false: the nonempty guardrails value consisting of the
lines x, a single space, and y is not interpolated verbatim into the returned
request text, because the dedent pass erases its whitespace-only middle line;
the variant with an empty middle line does occur. -/
theorem build_prompt_not_verbatim_counterexample :
    str "x\n \ny" ≠ [] ∧
    ¬ (str "x\n \ny" <:+: build_prompt [str "Rome"] 3 [] (str "x\n \ny") 1 []) ∧
    (str "x\n\ny" <:+: build_prompt [str "Rome"] 3 [] (str "x\n \ny") 1 []) :=
  ⟨by decide, by decide, by decide⟩

/-- C6: a submission whose cities text yields no cities after line splitting,
trimming and dropping blanks is aborted with the warning alone: the result is
the unchanged state (in particular the stored itinerary text), the single
warning effect, and a normal outcome, so no prompt is built and neither the
generation service nor the Budget Estimator is called; with no stored
itinerary, the output section runs no estimate either. -/
theorem empty_cities_aborts (s : TripState) (call : Except GenFailure ApiResponse)
    (h : parseCities s.cities = []) :
    submitted s call =
      (s, [Effect.warn (str "Please enter at least one city.")], Except.ok ()) ∧
    (s.plan_md = [] → outputSection (submitted s call).1 = []) := by
  have h1 : submitted s call =
      (s, [Effect.warn (str "Please enter at least one city.")], Except.ok ()) := by
    simp [submitted, h]
  refine ⟨h1, fun hp => ?_⟩
  rw [h1]
  simp [outputSection, hp]

theorem empty_cities_aborts_witness :
    parseCities (str " \n\t") = [] ∧
    (submitted ⟨str " \n\t", 3, [], [], 300, 1, [], []⟩ (Except.error GenFailure.network) =
      (⟨str " \n\t", 3, [], [], 300, 1, [], []⟩,
        [Effect.warn (str "Please enter at least one city.")], Except.ok ()) ∧
     (TripState.plan_md ⟨str " \n\t", 3, [], [], 300, 1, [], []⟩ = [] →
       outputSection (submitted ⟨str " \n\t", 3, [], [], 300, 1, [], []⟩
         (Except.error GenFailure.network)).1 = [])) :=
  ⟨by decide,
   empty_cities_aborts ⟨str " \n\t", 3, [], [], 300, 1, [], []⟩
     (Except.error GenFailure.network) (by decide)⟩

/-- C7: every failure of the external generation call (a raised network,
authentication or quota failure, and a malformed response without a first
choice) surfaces as the same uniform failed outcome: the state, and with it the
displayed itinerary, is unchanged, exactly one service call was made (no
retry), the outcome is the propagated failure, and the resulting state and
effect list are the same whichever failure occurred. -/
theorem generation_failure_uniform (s : TripState) (call : Except GenFailure ApiResponse)
    (e : GenFailure) (hc : parseCities s.cities ≠ [])
    (hfail : generate_itinerary call = Except.error e) :
    (submitted s call).1 = s ∧
    (submitted s call).2.2 = Except.error e ∧
    ((submitted s call).2.1.filter isApiCall).length = 1 ∧
    (∀ (call2 : Except GenFailure ApiResponse) (e2 : GenFailure),
      generate_itinerary call2 = Except.error e2 →
      (submitted s call2).1 = (submitted s call).1 ∧
      (submitted s call2).2.1 = (submitted s call).2.1) := by
  refine ⟨?_, ?_, ?_, ?_⟩
  · simp [submitted, hc, hfail]
  · simp [submitted, hc, hfail]
  · simp [submitted, hc, hfail, isApiCall]
  · intro call2 e2 h2
    constructor
    · simp [submitted, hc, hfail, h2]
    · simp [submitted, hc, hfail, h2]

theorem generation_failure_uniform_witness :
    parseCities (TripState.cities ⟨str "Rome", 3, [], [], 300, 1, [], []⟩) ≠ [] ∧
    generate_itinerary (Except.error GenFailure.quota) = Except.error GenFailure.quota ∧
    ((submitted ⟨str "Rome", 3, [], [], 300, 1, [], []⟩ (Except.error GenFailure.quota)).1 =
        ⟨str "Rome", 3, [], [], 300, 1, [], []⟩ ∧
      (submitted ⟨str "Rome", 3, [], [], 300, 1, [], []⟩
          (Except.error GenFailure.quota)).2.2 = Except.error GenFailure.quota ∧
      ((submitted ⟨str "Rome", 3, [], [], 300, 1, [], []⟩
          (Except.error GenFailure.quota)).2.1.filter isApiCall).length = 1 ∧
      (∀ (call2 : Except GenFailure ApiResponse) (e2 : GenFailure),
        generate_itinerary call2 = Except.error e2 →
        (submitted ⟨str "Rome", 3, [], [], 300, 1, [], []⟩ call2).1 =
          (submitted ⟨str "Rome", 3, [], [], 300, 1, [], []⟩
            (Except.error GenFailure.quota)).1 ∧
        (submitted ⟨str "Rome", 3, [], [], 300, 1, [], []⟩ call2).2.1 =
          (submitted ⟨str "Rome", 3, [], [], 300, 1, [], []⟩
            (Except.error GenFailure.quota)).2.1)) :=
  ⟨by decide, rfl,
   generation_failure_uniform ⟨str "Rome", 3, [], [], 300, 1, [], []⟩
     (Except.error GenFailure.quota) GenFailure.quota (by decide) rfl⟩

/-- C8: for every prior session state, reset_all yields exactly the documented
defaults: empty cities, 3 days, no interests, empty guardrails, daily budget
300, one person, empty ages, empty itinerary text. -/
theorem reset_all_defaults (s : RawSession) :
    reset_all s = ⟨some [], some 3, some [], some [], some 300, some 1, some [], some []⟩ :=
  rfl
